import Mathlib

/-!
# GopherConUK2021 demos: a shallow embedding

The demos are glue code around the OpenTelemetry SDK, `net/http` and `zerolog`.
Calls into those libraries are modelled by their results: the outcome of a library
call that the program cannot control (an ID generator, the outcome of an HTTP round
trip, the raw output of the random source) is an input of the model, and every call
that matters for a property is recorded in an effect trace.
-/

/-! ## demo3/a-service -/

namespace AService

/-- A Go `error` value (non-nil). -/
structure GoError where
  msg : String
  deriving DecidableEq, Repr

/-- Models `trace.SpanContext`: the identifier pair of a span; the all-zero identifier is the
library's nil (invalid) identifier. -/
structure SpanContext where
  traceID : Nat
  spanID : Nat
  deriving DecidableEq, Repr

/-- Models `context.Context`, reduced to what the demos read from it: the context of the span
it carries (`trace.SpanContextFromContext`), all zero when it carries none. -/
structure Context where
  spanContext : SpanContext
  deriving DecidableEq, Repr

/-- Models `context.Background()`. -/
def Context.Background : Context := ⟨⟨0, 0⟩⟩

/-- Models `*http.Request`, as built by `http.NewRequestWithContext`. -/
structure Request where
  ctx : Context
  method : String
  url : String
  deriving DecidableEq, Repr

/-- Models `*http.Response`, reduced to its status code. -/
structure Response where
  statusCode : Nat
  deriving DecidableEq, Repr

/-- A span handle returned by `tracer.Start`. -/
structure Span where
  name : String
  sc : SpanContext
  deriving DecidableEq, Repr

/-- Models `span.SpanContext()`. -/
def Span.SpanContext (s : Span) : SpanContext := s.sc

/-- The observable effects of one handler invocation, in program order. -/
inductive Effect where
  | spanStart (name : String) (sc : SpanContext)
  | spanEnd (name : String) (sc : SpanContext)
  | logPrintln (traceID : Nat)
  | clientDo (req : Request)
  | writeHeader (code : Nat)
  | write (body : String)
  deriving DecidableEq, Repr

/-- The SDK's ID generator: the identifiers it hands out, indexed by the number of
identifiers generated so far. -/
structure Tracer where
  newTraceID : Nat → Nat
  newSpanID : Nat → Nat

/-- The mutable world a handler runs in: the effect trace and the ID generator's
position. -/
structure State where
  trace : List Effect
  nextID : Nat
  deriving DecidableEq, Repr

/-- Record one effect. -/
def State.emit (st : State) (e : Effect) : State :=
  { st with trace := st.trace ++ [e] }

/-- Models `tracer.Start(ctx, name)`: the new span is a child of the span carried by `ctx`
when that one has a valid trace ID (it inherits the trace ID and gets a fresh span ID),
and a new root otherwise; the returned context carries the new span. -/
def Tracer.Start (t : Tracer) (st : State) (ctx : Context) (name : String) :
    Context × Span × State :=
  let psc := ctx.spanContext
  let sc : SpanContext :=
    if psc.traceID ≠ 0 then ⟨psc.traceID, t.newSpanID st.nextID⟩
    else ⟨t.newTraceID st.nextID, t.newSpanID st.nextID⟩
  let st1 : State := { st with nextID := st.nextID + 1 }
  (⟨sc⟩, ⟨name, sc⟩, st1.emit (.spanStart name sc))

/-- Models `span.End()`. -/
def Span.End (s : Span) (st : State) : State :=
  st.emit (.spanEnd s.name s.sc)

/-- Models `http.ResponseWriter`: the status line once written, and the body written so far. -/
structure ResponseWriter where
  status : Option Nat
  body : String
  deriving DecidableEq, Repr

/-- The writer a handler receives: nothing written yet. -/
def ResponseWriter.fresh : ResponseWriter := ⟨none, ""⟩

/-- Models `w.WriteHeader(code)`: only the first call sets the status. -/
def ResponseWriter.WriteHeader (w : ResponseWriter) (code : Nat) : ResponseWriter :=
  match w.status with
  | some _ => w
  | none => { w with status := some code }

/-- Models `w.Write(b)`: writes the header with 200 first when none was written. -/
def ResponseWriter.Write (w : ResponseWriter) (b : String) : ResponseWriter :=
  let w1 := match w.status with
    | some _ => w
    | none => w.WriteHeader 200
  { w1 with body := w1.body ++ b }

def StatusOK : Nat := 200
def StatusInternalServerError : Nat := 500
def MethodGet : String := "GET"

/-- What the program does not control: the ID generator, whether
`http.NewRequestWithContext` reports an error, and what `client().Do(req)` returns: an
error (a transport failure, or a failure of the client's own policy such as too many
redirects), or a response, which may have any status code. What the downstream sent is
not an input: only what `Do` hands back to `serviceB` is. -/
structure Env where
  tracer : Tracer
  newRequestErr : Option GoError
  doResult : Request → Except GoError Response

/-- The URL `serviceB` requests. -/
def serviceBURL : String := "http://localhost:4000"

/-- Embeds `serviceB(ctx)` of demo3/a-service/main.go; the deferred `span.End()` runs on every
return path. -/
def serviceB (env : Env) (st : State) (ctx : Context) : Option GoError × State :=
  let (_, span, st1) := env.tracer.Start st ctx "serviceB"
  let body : Option GoError × State :=
    match env.newRequestErr with
    | some err => (some err, st1)
    | none =>
      let req : Request := ⟨ctx, MethodGet, serviceBURL⟩
      let st2 := st1.emit (.clientDo req)
      match env.doResult req with
      | .error err => (some err, st2)
      | .ok _ => (none, st2)
  (body.1, span.End body.2)

/-- The handler up to the call of `serviceB`: the span is started on the request's
context and its trace ID is logged. -/
def handlerEntry (env : Env) (st : State) (r : Request) : Context × Span × State :=
  let ctx := r.ctx
  let (ctx1, span, st1) := env.tracer.Start st ctx "handler"
  (ctx1, span, st1.emit (.logPrintln span.SpanContext.traceID))

/-- The handler of demo3/a-service/main.go; the deferred `span.End()` runs on every
return path. -/
def handler (env : Env) (st : State) (w : ResponseWriter) (r : Request) :
    ResponseWriter × State :=
  let (ctx, span, st1) := handlerEntry env st r
  let body : ResponseWriter × State :=
    match serviceB env st1 ctx with
    | (some _, st2) =>
      (w.WriteHeader StatusInternalServerError,
        st2.emit (.writeHeader StatusInternalServerError))
    | (none, st2) =>
      let w1 := w.WriteHeader StatusOK
      let st3 := st2.emit (.writeHeader StatusOK)
      (w1.Write "a-service", st3.emit (.write "a-service"))
  (body.1, span.End body.2)

/-- The effect is the outbound HTTP request. -/
def Effect.isClientDo : Effect → Bool
  | .clientDo _ => true
  | _ => false

/-- The effect is the end of a span. -/
def Effect.isSpanEnd : Effect → Bool
  | .spanEnd _ _ => true
  | _ => false

/-- The effect is the start of a span. -/
def Effect.isSpanStart : Effect → Bool
  | .spanStart _ _ => true
  | _ => false

/-- The status code is in the 2xx range. -/
def Response.is2xx (resp : Response) : Bool :=
  decide (200 ≤ resp.statusCode) && decide (resp.statusCode < 300)

end AService

/-! ## Listen addresses and the downstream URL (demo3, demo4) -/

namespace BService

/-- The `Addr` of b-service's `http.Server` (demo3/b-service/main.go). -/
def Addr : String := "localhost:3001"

end BService

namespace Demo4

/-- The `Addr` of demo4's `http.Server` (demo4/main.go). -/
def Addr : String := "localhost:4000"

end Demo4

namespace AService

/-- The `Addr` of a-service's `http.Server`. -/
def Addr : String := "localhost:3000"

/-- Host and port of an `http://host:port/path` URL: what follows the scheme, up to the
first slash. -/
def urlHost (url : String) : String :=
  let cs := url.toList
  let rest := if "http://".toList.isPrefixOf cs then cs.drop 7 else cs
  String.mk (rest.takeWhile (fun c => c != '/'))

end AService

/-! ## demo4: log and trace correlation -/

namespace Demo4

/-- One lower-case hexadecimal digit. -/
def hexDigit (n : Nat) : Char :=
  if n < 10 then Char.ofNat (48 + n) else Char.ofNat (87 + n)

/-- Models `hex.EncodeToString`: two digits per byte. -/
def hexEncode (bytes : List Nat) : String :=
  String.mk (bytes.flatMap (fun b => [hexDigit (b % 256 / 16), hexDigit (b % 16)]))

/-- Models `trace.TraceID`: the 16 bytes of a trace identifier. -/
structure TraceID where
  bytes : List Nat
  deriving DecidableEq, Repr

/-- Models `trace.SpanID`: the 8 bytes of a span identifier. -/
structure SpanID where
  bytes : List Nat
  deriving DecidableEq, Repr

/-- Models `TraceID.IsValid`: some byte is not zero. -/
def TraceID.IsValid (t : TraceID) : Bool := t.bytes.any (fun b => b % 256 != 0)

/-- Models `SpanID.IsValid`: some byte is not zero. -/
def SpanID.IsValid (s : SpanID) : Bool := s.bytes.any (fun b => b % 256 != 0)

/-- Models `TraceID.String`: the identifier in hexadecimal. -/
def TraceID.String (t : TraceID) : String := hexEncode t.bytes

/-- Models `SpanID.String`: the identifier in hexadecimal. -/
def SpanID.String (s : SpanID) : String := hexEncode s.bytes

/-- Models `trace.SpanContext`. -/
structure SpanContext where
  traceID : TraceID
  spanID : SpanID
  deriving DecidableEq, Repr

def SpanContext.HasTraceID (sc : SpanContext) : Bool := sc.traceID.IsValid
def SpanContext.HasSpanID (sc : SpanContext) : Bool := sc.spanID.IsValid
def SpanContext.TraceID (sc : SpanContext) : TraceID := sc.traceID
def SpanContext.SpanID (sc : SpanContext) : SpanID := sc.spanID

/-- Models `trace.Span`, by the two methods the hook calls. -/
structure Span where
  isRecording : Bool
  sc : SpanContext
  deriving DecidableEq, Repr

def Span.IsRecording (s : Span) : Bool := s.isRecording
def Span.SpanContext (s : Span) : SpanContext := s.sc

/-- Models `zerolog.Event`: the fields written to the event so far, in order. -/
structure Event where
  fields : List (String × String)
  deriving DecidableEq, Repr

/-- Models `event.Str(key, val)`: appends one string field. -/
def Event.Str (e : Event) (key val : String) : Event :=
  ⟨e.fields ++ [(key, val)]⟩

/-- Models `zerolog.Level`. -/
inductive Level where
  | debug | info | warn | error
  deriving DecidableEq, Repr

/-- Embeds `SpanLogHook(span)` of demo4/main.go: the function the returned `zerolog.HookFunc`
runs on each event; level and message are ignored. -/
def SpanLogHook (span : Span) (event : Event) (_level : Level) (_msg : String) : Event :=
  if span.IsRecording then
    let ctx := span.SpanContext
    let event1 := if ctx.HasTraceID then event.Str "traceID" ctx.TraceID.String else event
    let event2 := if ctx.HasSpanID then event1.Str "spanID" ctx.SpanID.String else event1
    event2
  else event

/-- The log line of `foo` of demo4/main.go, for the span that `tracer.Start(ctx, "foo")`
returned: `log.Hook(SpanLogHook(span))` then `l.Debug().Send()`, the hook being run on the
event `base` that the logger prepared. -/
def foo (span : Span) (base : Event) : Event :=
  SpanLogHook span base Level.debug ""

/-- The event has a field named `key`. -/
def Event.hasField (e : Event) (key : String) : Bool :=
  e.fields.any (fun kv => kv.1 == key)

/-- A span that records but whose identifiers are the nil identifiers. -/
def recordingNilSpan : Span :=
  ⟨true, ⟨⟨List.replicate 16 0⟩, ⟨List.replicate 8 0⟩⟩⟩

/-- A recording span with valid identifiers. -/
def sampleSpan : Span :=
  ⟨true, ⟨⟨List.replicate 15 0 ++ [171]⟩, ⟨List.replicate 7 0 ++ [1]⟩⟩⟩

end Demo4

/-! ## demo5: the counter -/

namespace Demo5

/-- Models `rand.Int63n(n)`, for the value `v` of the source that its rejection loop accepts:
`v % n` (for `n` a power of two the library computes `v & (n-1)`, the same number). -/
def Int63n (n : Int) (v : Nat) : Int := (v : Int) % n

/-- The `Int64Counter` instrument: the value it has accumulated, and the increments it
was given, in order. -/
structure Counter where
  value : Int
  adds : List Int
  deriving DecidableEq, Repr

/-- Models `meter.NewInt64Counter`: a counter at zero. -/
def Counter.new : Counter := ⟨0, []⟩

/-- Models `counter.Add(ctx, n)`. -/
def Counter.Add (c : Counter) (n : Int) : Counter :=
  ⟨c.value + n, c.adds ++ [n]⟩

/-- The case the `select` of `makeMetrics` takes: a tick (with the value the random
source yields on that tick), or the cancellation of the context. -/
inductive Select where
  | tick (v : Nat)
  | done
  deriving DecidableEq, Repr

/-- How far `makeMetrics` got: it returned (with its error, if any), or it is blocked in
`select`. -/
inductive Status where
  | returned (err : Option String)
  | blocked
  deriving DecidableEq, Repr

/-- The `for`/`select` loop of `makeMetrics`. -/
def makeMetricsLoop : List Select → Counter → Status × Counter
  | [], c => (.blocked, c)
  | .done :: _, c => (.returned none, c)
  | .tick v :: rest, c =>
    let n := Int63n 10 v
    makeMetricsLoop rest (c.Add n)

/-- Embeds `makeMetrics(ctx)` of demo5/main.go, over the sequence of cases its `select` takes;
`newCounterErr` is the error of `meter.NewInt64Counter`, if any. -/
def makeMetrics (newCounterErr : Option String) (events : List Select) : Status × Counter :=
  match newCounterErr with
  | some err => (.returned (some err), Counter.new)
  | none => makeMetricsLoop events Counter.new

end Demo5

/-! ## Graceful shutdown -/

namespace Shutdown

/-- A cancellable `context.Context`: whether `Done()` is closed. -/
structure Ctx where
  cancelled : Bool
  deriving DecidableEq, Repr

/-- Models `context.Background()`: never cancelled. -/
def Ctx.Background : Ctx := ⟨false⟩

/-- Models `cancel()` of `context.WithCancel`. -/
def Ctx.cancel (_ctx : Ctx) : Ctx := ⟨true⟩

/-- An `http.Server` at the time of the signal: whether its listener is open, how many
accepted requests are still being served, and how many have completed. -/
structure Server where
  listening : Bool
  inFlight : Nat
  completed : Nat
  deriving DecidableEq, Repr

/-- The error `srv.Shutdown` returns. -/
inductive ShutdownResult where
  | drained
  | ctxErr
  deriving DecidableEq, Repr

/-- Models `srv.Shutdown(ctx)` as `net/http` documents it: the listeners are closed; the call
then waits for the active connections to become idle, and returns the context's error as
soon as the context is done while connections are still active. -/
def Server.Shutdown (srv : Server) (ctx : Ctx) : Server × ShutdownResult :=
  let srv1 := { srv with listening := false }
  if srv1.inFlight = 0 then (srv1, .drained)
  else if ctx.cancelled then (srv1, .ctxErr)
  else ({ srv1 with inFlight := 0, completed := srv1.completed + srv1.inFlight }, .drained)

/-- The signal path of `main` in a-service, b-service and demo4: `srv.Shutdown(ctx)` with
`ctx := context.Background()`. -/
def mainOnSignalBackground (srv : Server) : Server × ShutdownResult :=
  let ctx := Ctx.Background
  srv.Shutdown ctx

/-- The signal path of `main` in demo5: `cancel()`, then `srv.Shutdown(ctx)` with the
context just cancelled. -/
def mainOnSignalDemo5 (srv : Server) : Server × ShutdownResult :=
  let ctx := Ctx.Background
  let ctx := ctx.cancel
  srv.Shutdown ctx

end Shutdown

namespace AService

/-- The error `serviceB` hands back to the handler serving `r` from state `st`. -/
def serviceBResult (env : Env) (st : State) (r : Request) : Option GoError :=
  (serviceB env (handlerEntry env st r).2.2 (handlerEntry env st r).1).1

/-- The request `serviceB` builds when called by the handler serving `r`. -/
def outboundRequest (env : Env) (st : State) (r : Request) : Request :=
  ⟨(handlerEntry env st r).1, MethodGet, serviceBURL⟩

/-- The effects of one handler invocation: what it appended to the trace. -/
def handlerEffects (env : Env) (st : State) (w : ResponseWriter) (r : Request) :
    List Effect :=
  (handler env st w r).2.trace.drop st.trace.length

/-- The context of the span the handler starts. -/
def handlerSpanContext (env : Env) (st : State) (r : Request) : SpanContext :=
  (handlerEntry env st r).2.1.sc

/-- The context of the span `serviceB` starts when called by the handler. -/
def serviceBSpanContext (env : Env) (st : State) (r : Request) : SpanContext :=
  (env.tracer.Start (handlerEntry env st r).2.2 (handlerEntry env st r).1 "serviceB").2.1.sc

/-- An ID generator for examples. -/
def sampleTracer : Tracer := ⟨fun n => n + 100, fun n => n + 7⟩

/-- The call `Do` returns a response with status 500 and no error. -/
def env500 : Env := ⟨sampleTracer, none, fun _ => .ok ⟨500⟩⟩

/-- The call `Do` returns an error and no response (here: the connection is refused). -/
def envRefused : Env := ⟨sampleTracer, none, fun _ => .error ⟨"connection refused"⟩⟩

/-- The call `Do` returns a response with status 200 and no error. -/
def env200 : Env := ⟨sampleTracer, none, fun _ => .ok ⟨200⟩⟩

/-- The call `Do` returns a response with status 404 and no error. -/
def env404 : Env := ⟨sampleTracer, none, fun _ => .ok ⟨404⟩⟩

/-- An inbound request without trace context. -/
def sampleRequest : Request := ⟨Context.Background, "GET", "/"⟩

/-- The state before the first request. -/
def State.init : State := ⟨[], 0⟩

end AService

/-! ## Theorems: demo3/a-service -/

namespace AService

/-- The effects of one handler invocation, spelled out. -/
theorem handlerEffects_eq (env : Env) (st : State) (w : ResponseWriter) (r : Request) :
    handlerEffects env st w r =
      [.spanStart "handler" (handlerSpanContext env st r),
       .logPrintln (handlerSpanContext env st r).traceID,
       .spanStart "serviceB" (serviceBSpanContext env st r)]
      ++ (if env.newRequestErr = none then [.clientDo (outboundRequest env st r)] else [])
      ++ [.spanEnd "serviceB" (serviceBSpanContext env st r)]
      ++ (if serviceBResult env st r = none
            then [.writeHeader StatusOK, .write "a-service"]
            else [.writeHeader StatusInternalServerError])
      ++ [.spanEnd "handler" (handlerSpanContext env st r)] := by
  unfold handlerEffects handler serviceBResult outboundRequest handlerSpanContext
    serviceBSpanContext
  simp only [serviceB, handlerEntry, Tracer.Start, Span.End, State.emit, Span.SpanContext]
  cases h1 : env.newRequestErr with
  | some e => simp
  | none =>
    simp only []
    cases h2 : env.doResult _ with
    | error e => simp
    | ok resp => simp

/-- The response of the handler, by the result of `serviceB`. -/
theorem handler_response_eq (env : Env) (st : State) (r : Request) :
    (handler env st ResponseWriter.fresh r).1 =
      if serviceBResult env st r = none then ⟨some 200, "a-service"⟩ else ⟨some 500, ""⟩ := by
  unfold handler serviceBResult
  cases h : serviceB env (handlerEntry env st r).2.2 (handlerEntry env st r).1 with
  | mk err st2 =>
    cases err with
    | none =>
      simp [h, ResponseWriter.fresh, ResponseWriter.WriteHeader, ResponseWriter.Write,
        StatusOK]
    | some e =>
      simp [h, ResponseWriter.fresh, ResponseWriter.WriteHeader,
        StatusInternalServerError]

/-- When `serviceB` returns an error: the request could not be built, or `Do` returned an
error. -/
theorem serviceB_result_eq (env : Env) (st : State) (ctx : Context) :
    (serviceB env st ctx).1 =
      match env.newRequestErr with
      | some err => some err
      | none =>
        match env.doResult ⟨ctx, MethodGet, serviceBURL⟩ with
        | .error err => some err
        | .ok _ => none := by
  unfold serviceB
  simp only [Tracer.Start]
  cases env.newRequestErr with
  | some e => rfl
  | none =>
    simp only []
    cases env.doResult ⟨ctx, MethodGet, serviceBURL⟩ <;> rfl

/-- C1: the handler answers 200 with body "a-service" exactly when `serviceB` returned no
error, and 500 with an empty body exactly when it returned one. -/
theorem handler_status_iff_serviceB (env : Env) (st : State) (r : Request) :
    (serviceBResult env st r = none ↔
        (handler env st ResponseWriter.fresh r).1.status = some 200 ∧
        (handler env st ResponseWriter.fresh r).1.body = "a-service") ∧
    (serviceBResult env st r ≠ none ↔
        (handler env st ResponseWriter.fresh r).1.status = some 500 ∧
        (handler env st ResponseWriter.fresh r).1.body = "") := by
  rw [handler_response_eq]
  by_cases h : serviceBResult env st r = none <;> simp [h]

/-- C2, as stated, fails: `Do` returns a response with status 500, a status outside the
2xx range, and `serviceB` returns no error, so that the handler answers 200. -/
theorem serviceB_non2xx_no_error :
    env500.newRequestErr = none ∧
    env500.doResult (outboundRequest env500 State.init sampleRequest) = .ok ⟨500⟩ ∧
    Response.is2xx ⟨500⟩ = false ∧
    serviceBResult env500 State.init sampleRequest = none ∧
    (handler env500 State.init ResponseWriter.fresh sampleRequest).1.status = some 200 := by
  refine ⟨rfl, rfl, by decide, ?_, ?_⟩
  · unfold serviceBResult; rw [serviceB_result_eq]; rfl
  · rw [handler_response_eq]
    have : serviceBResult env500 State.init sampleRequest = none := by
      unfold serviceBResult; rw [serviceB_result_eq]; rfl
    simp [this]

/-- C2, amended: `serviceB` returns an error exactly when the request cannot be built or
`Do` returns an error, and the handler answers 500 exactly then; when `Do` returns a
response, `serviceB` returns no error and the handler answers 200, whatever the status
code of that response. -/
theorem serviceB_error_iff (env : Env) (st : State) (r : Request) :
    (serviceBResult env st r ≠ none ↔
      env.newRequestErr ≠ none ∨
        ∃ err, env.doResult (outboundRequest env st r) = .error err) ∧
    ((handler env st ResponseWriter.fresh r).1.status = some 500 ↔
      env.newRequestErr ≠ none ∨
        ∃ err, env.doResult (outboundRequest env st r) = .error err) ∧
    (∀ resp, env.newRequestErr = none →
      env.doResult (outboundRequest env st r) = .ok resp →
      serviceBResult env st r = none ∧
        (handler env st ResponseWriter.fresh r).1.status = some 200) := by
  have key : serviceBResult env st r ≠ none ↔
      env.newRequestErr ≠ none ∨
        ∃ err, env.doResult (outboundRequest env st r) = .error err := by
    unfold serviceBResult outboundRequest
    rw [serviceB_result_eq]
    cases env.newRequestErr with
    | some e => simp
    | none =>
      simp only []
      cases env.doResult ⟨(handlerEntry env st r).1, MethodGet, serviceBURL⟩ <;> simp
  refine ⟨key, ?_, ?_⟩
  · rw [← key, handler_response_eq]
    by_cases h : serviceBResult env st r = none <;> simp [h]
  · intro resp h1 h2
    have hn : serviceBResult env st r = none := by
      by_contra hc
      rcases key.mp hc with h | ⟨e, he⟩
      · exact h h1
      · rw [h2] at he; cases he
    refine ⟨hn, ?_⟩
    rw [handler_response_eq]; simp [hn]

/-- The amended C2 at two outcomes of `Do`: when it returns an error `serviceB` returns an
error and the handler answers 500; when it returns a response with status 404 `serviceB`
returns no error and the handler answers 200. -/
theorem serviceB_error_iff_witness :
    (serviceBResult envRefused State.init sampleRequest ≠ none ∧
      (handler envRefused State.init ResponseWriter.fresh sampleRequest).1.status =
        some 500) ∧
    (serviceBResult env404 State.init sampleRequest = none ∧
      (handler env404 State.init ResponseWriter.fresh sampleRequest).1.status = some 200) :=
  have h := serviceB_error_iff envRefused State.init sampleRequest
  have hd : envRefused.newRequestErr ≠ none ∨
      ∃ err, envRefused.doResult (outboundRequest envRefused State.init sampleRequest) =
        .error err := Or.inr ⟨⟨"connection refused"⟩, rfl⟩
  ⟨⟨h.1.mpr hd, h.2.1.mpr hd⟩,
    (serviceB_error_iff env404 State.init sampleRequest).2.2 ⟨404⟩ rfl rfl⟩

/-- C7: the context attached to the outbound request carries the span the handler started,
so it has that span's trace ID; and a span started from that context (as the instrumented
transport does before the propagator injects it) inherits that trace ID when it is valid. -/
theorem outbound_traceID_eq_handler (env : Env) (st : State) (w : ResponseWriter)
    (r : Request) (sc : SpanContext) (req : Request)
    (hs : Effect.spanStart "handler" sc ∈ handlerEffects env st w r)
    (hd : Effect.clientDo req ∈ handlerEffects env st w r) :
    req.ctx.spanContext.traceID = sc.traceID ∧
    (sc.traceID ≠ 0 → ∀ (t : Tracer) (st2 : State) (name : String),
      (t.Start st2 req.ctx name).2.1.sc.traceID = sc.traceID) := by
  rw [handlerEffects_eq] at hs hd
  have hsc : sc = handlerSpanContext env st r := by
    by_cases h1 : env.newRequestErr = none <;>
      by_cases h2 : serviceBResult env st r = none <;>
      simp [h1, h2] at hs <;> exact hs
  have hreq : req = outboundRequest env st r := by
    by_cases h1 : env.newRequestErr = none <;>
      by_cases h2 : serviceBResult env st r = none <;>
      simp [h1, h2] at hd <;> exact hd
  have hctx : req.ctx.spanContext = sc := by
    rw [hsc, hreq]
    simp [outboundRequest, handlerSpanContext, handlerEntry, Tracer.Start]
  refine ⟨by rw [hctx], ?_⟩
  intro hv t st2 name
  simp [Tracer.Start, hctx, hv]

/-- The premise of C7 is met: on the success path the handler's span is started and the
outbound request is made, with the trace ID the generator issued. -/
theorem outbound_traceID_eq_handler_witness :
    Effect.spanStart "handler" ⟨100, 7⟩ ∈
      handlerEffects env200 State.init ResponseWriter.fresh sampleRequest ∧
    Effect.clientDo ⟨⟨⟨100, 7⟩⟩, MethodGet, serviceBURL⟩ ∈
      handlerEffects env200 State.init ResponseWriter.fresh sampleRequest ∧
    (100 : Nat) = 100 ∧
    ((100 : Nat) ≠ 0 → ∀ (t : Tracer) (st2 : State) (name : String),
      (t.Start st2 ⟨⟨100, 7⟩⟩ name).2.1.sc.traceID = 100) :=
  have hs : Effect.spanStart "handler" ⟨100, 7⟩ ∈
      handlerEffects env200 State.init ResponseWriter.fresh sampleRequest := by decide
  have hd : Effect.clientDo ⟨⟨⟨100, 7⟩⟩, MethodGet, serviceBURL⟩ ∈
      handlerEffects env200 State.init ResponseWriter.fresh sampleRequest := by decide
  ⟨hs, hd, outbound_traceID_eq_handler env200 State.init ResponseWriter.fresh sampleRequest
    ⟨100, 7⟩ ⟨⟨⟨100, 7⟩⟩, MethodGet, serviceBURL⟩ hs hd⟩

/-- C8: one handler invocation makes the outbound request at most once: exactly once when
the request could be built, whatever `Do` returns, and not at all otherwise. -/
theorem clientDo_at_most_once (env : Env) (st : State) (w : ResponseWriter) (r : Request) :
    (handlerEffects env st w r).countP Effect.isClientDo ≤ 1 ∧
    (handlerEffects env st w r).countP Effect.isClientDo =
      (if env.newRequestErr = none then 1 else 0) := by
  rw [handlerEffects_eq]
  by_cases h1 : env.newRequestErr = none <;>
    by_cases h2 : serviceBResult env st r = none <;>
    simp [h1, h2, List.countP_cons, Effect.isClientDo]

/-- C9: on every path the span events of one handler invocation are, in order: start of
"handler", start of "serviceB", end of "serviceB", end of "handler"; each span is ended
once, the inner one first, and the end of "handler" is the last effect of the handler. -/
theorem spans_ended_once_nested (env : Env) (st : State) (w : ResponseWriter)
    (r : Request) :
    (handlerEffects env st w r).filter (fun e => e.isSpanStart || e.isSpanEnd) =
      [.spanStart "handler" (handlerSpanContext env st r),
       .spanStart "serviceB" (serviceBSpanContext env st r),
       .spanEnd "serviceB" (serviceBSpanContext env st r),
       .spanEnd "handler" (handlerSpanContext env st r)] ∧
    (handlerEffects env st w r).getLast? =
      some (.spanEnd "handler" (handlerSpanContext env st r)) := by
  rw [handlerEffects_eq]
  by_cases h1 : env.newRequestErr = none <;>
    by_cases h2 : serviceBResult env st r = none <;>
    simp [h1, h2, List.filter_cons, Effect.isSpanStart, Effect.isSpanEnd]

end AService

/-! ## Theorems: the downstream address -/

namespace AService

/-- C6: the host and port `serviceB` requests is demo4's listen address, localhost:4000,
and not the address b-service listens on, localhost:3001. -/
theorem serviceB_url_not_bService_addr :
    urlHost serviceBURL = "localhost:4000" ∧
    urlHost serviceBURL = Demo4.Addr ∧
    BService.Addr = "localhost:3001" ∧
    urlHost serviceBURL ≠ BService.Addr := by
  decide

end AService

/-! ## Theorems: demo4 -/

namespace Demo4

/-- The hook appends to the event, and what it appends depends on the span only. -/
theorem SpanLogHook_fields (span : Span) (event : Event) (level : Level) (msg : String) :
    (SpanLogHook span event level msg).fields =
      event.fields
        ++ (if span.IsRecording = true ∧ span.SpanContext.HasTraceID = true
              then [("traceID", span.SpanContext.TraceID.String)] else [])
        ++ (if span.IsRecording = true ∧ span.SpanContext.HasSpanID = true
              then [("spanID", span.SpanContext.SpanID.String)] else []) := by
  unfold SpanLogHook
  cases h1 : span.IsRecording <;> cases h2 : span.SpanContext.HasTraceID <;>
    cases h3 : span.SpanContext.HasSpanID <;> simp [Event.Str, h1, h2, h3]

/-- C3: the hook appends a "traceID" field exactly when the span records and has a trace
ID, a "spanID" field exactly when it records and has a span ID; an appended field carries
the string form of the span's identifier, and nothing else is appended. -/
theorem SpanLogHook_adds_iff (span : Span) (event : Event) (level : Level) (msg : String) :
    ∃ added : List (String × String),
      (SpanLogHook span event level msg).fields = event.fields ++ added ∧
      ((∃ v, ("traceID", v) ∈ added) ↔
        (span.IsRecording = true ∧ span.SpanContext.HasTraceID = true)) ∧
      ((∃ v, ("spanID", v) ∈ added) ↔
        (span.IsRecording = true ∧ span.SpanContext.HasSpanID = true)) ∧
      (∀ v, ("traceID", v) ∈ added → v = span.SpanContext.TraceID.String) ∧
      (∀ v, ("spanID", v) ∈ added → v = span.SpanContext.SpanID.String) ∧
      (∀ k v, (k, v) ∈ added → k = "traceID" ∨ k = "spanID") ∧
      added.countP (fun kv => kv.1 == "traceID") ≤ 1 ∧
      added.countP (fun kv => kv.1 == "spanID") ≤ 1 := by
  refine ⟨(if span.IsRecording = true ∧ span.SpanContext.HasTraceID = true
              then [("traceID", span.SpanContext.TraceID.String)] else [])
        ++ (if span.IsRecording = true ∧ span.SpanContext.HasSpanID = true
              then [("spanID", span.SpanContext.SpanID.String)] else []), ?_, ?_⟩
  · rw [SpanLogHook_fields, List.append_assoc]
  · by_cases h1 : (span.IsRecording = true ∧ span.SpanContext.HasTraceID = true) <;>
      by_cases h2 : (span.IsRecording = true ∧ span.SpanContext.HasSpanID = true) <;>
      simp [h1, h2, List.countP_cons] <;> aesop

/-- C4, as stated, fails: a span that records but has the nil identifiers gets neither
field on its log line. -/
theorem recording_span_without_ids_no_fields :
    recordingNilSpan.IsRecording = true ∧
    (foo recordingNilSpan ⟨[]⟩).hasField "traceID" = false ∧
    (foo recordingNilSpan ⟨[]⟩).hasField "spanID" = false := by
  decide

/-- C4, amended: for a span that records and has a trace ID and a span ID the log line
carries both fields, with the identifiers in string form; for a span that does not record
the hook leaves the event as it was. -/
theorem SpanLogHook_both_or_neither (span : Span) (event : Event) (level : Level)
    (msg : String) :
    (span.IsRecording = true ∧ span.SpanContext.HasTraceID = true ∧
        span.SpanContext.HasSpanID = true →
      (SpanLogHook span event level msg).hasField "traceID" = true ∧
      (SpanLogHook span event level msg).hasField "spanID" = true ∧
      (SpanLogHook span event level msg).fields =
        event.fields ++ [("traceID", span.SpanContext.TraceID.String),
          ("spanID", span.SpanContext.SpanID.String)]) ∧
    (span.IsRecording = false →
      SpanLogHook span event level msg = event ∧
      ((SpanLogHook span event level msg).hasField "traceID" = event.hasField "traceID") ∧
      ((SpanLogHook span event level msg).hasField "spanID" = event.hasField "spanID")) := by
  constructor
  · rintro ⟨h1, h2, h3⟩
    have hf := SpanLogHook_fields span event level msg
    simp only [h1, h2, h3, and_self, if_true] at hf
    simp [Event.hasField, hf]
  · intro h
    have : SpanLogHook span event level msg = event := by
      unfold SpanLogHook; simp [h]
    simp [this]

/-- Both parts of the amended C4 at concrete spans. -/
theorem SpanLogHook_both_or_neither_witness :
    (foo sampleSpan ⟨[]⟩).hasField "traceID" = true ∧
    (foo sampleSpan ⟨[]⟩).hasField "spanID" = true ∧
    (foo sampleSpan ⟨[]⟩).fields =
      [("traceID", "000000000000000000000000000000ab"), ("spanID", "0000000000000001")] ∧
    foo ⟨false, sampleSpan.sc⟩ ⟨[]⟩ = ⟨[]⟩ :=
  have h := (SpanLogHook_both_or_neither sampleSpan ⟨[]⟩ Level.debug "").1
    ⟨by decide, by decide, by decide⟩
  have h2 := (SpanLogHook_both_or_neither ⟨false, sampleSpan.sc⟩ ⟨[]⟩ Level.debug "").2 rfl
  ⟨h.1, h.2.1, h.2.2, h2.1⟩

end Demo4

/-! ## Theorems: demo5 -/

namespace Demo5

/-- Every increment is in the range of `Int63n(10)`. -/
theorem Int63n_ten_range (v : Nat) : 0 ≤ Int63n 10 v ∧ Int63n 10 v < 10 := by
  unfold Int63n
  omega

/-- The loop over ticks only: it stays in `select` and has added every increment. -/
theorem makeMetricsLoop_ticks (draws : List Nat) (c : Counter) :
    makeMetricsLoop (draws.map Select.tick) c =
      (.blocked, ⟨c.value + (draws.map (Int63n 10)).sum, c.adds ++ draws.map (Int63n 10)⟩) := by
  induction draws generalizing c with
  | nil => simp [makeMetricsLoop]
  | cons v rest ih =>
    simp only [List.map_cons, makeMetricsLoop, ih, Counter.Add, List.sum_cons,
      List.append_assoc, List.singleton_append, add_assoc]

/-- The loop over ticks and then the cancellation: it returns nil with the same counter. -/
theorem makeMetricsLoop_ticks_done (draws : List Nat) (rest : List Select) (c : Counter) :
    makeMetricsLoop (draws.map Select.tick ++ Select.done :: rest) c =
      (.returned none,
        ⟨c.value + (draws.map (Int63n 10)).sum, c.adds ++ draws.map (Int63n 10)⟩) := by
  induction draws generalizing c with
  | nil => simp [makeMetricsLoop]
  | cons v tl ih =>
    simp [makeMetricsLoop, ih, Counter.Add, add_assoc]

/-- Sum of increments in the range is between 0 and 9 per increment. -/
theorem sum_Int63n_bounds (draws : List Nat) :
    0 ≤ (draws.map (Int63n 10)).sum ∧ (draws.map (Int63n 10)).sum ≤ 9 * draws.length := by
  induction draws with
  | nil => simp
  | cons v rest ih =>
    have hv := Int63n_ten_range v
    simp only [List.map_cons, List.sum_cons, List.length_cons, Nat.cast_add, Nat.cast_one]
    omega

/-- C5: after N ticks the increments given to the counter are the N draws reduced by
`Int63n(10)`, each is at least 0 and below 10, the counter's value is their sum, it lies
between 0 and 9*N, one more tick never lowers it, and when the context is then cancelled
`makeMetrics` returns nil with that value. -/
theorem counter_is_sum_of_draws (draws : List Nat) :
    (makeMetrics none (draws.map Select.tick)).2.adds = draws.map (Int63n 10) ∧
    (makeMetrics none (draws.map Select.tick)).2.adds.length = draws.length ∧
    (∀ n ∈ (makeMetrics none (draws.map Select.tick)).2.adds, 0 ≤ n ∧ n < 10) ∧
    (makeMetrics none (draws.map Select.tick)).2.value =
      (makeMetrics none (draws.map Select.tick)).2.adds.sum ∧
    0 ≤ (makeMetrics none (draws.map Select.tick)).2.value ∧
    (makeMetrics none (draws.map Select.tick)).2.value ≤ 9 * draws.length ∧
    (∀ v : Nat, (makeMetrics none (draws.map Select.tick)).2.value ≤
      (makeMetrics none ((draws ++ [v]).map Select.tick)).2.value) ∧
    (∀ rest, makeMetrics none (draws.map Select.tick ++ Select.done :: rest) =
      (.returned none, (makeMetrics none (draws.map Select.tick)).2)) := by
  have hb := sum_Int63n_bounds draws
  have hm : ∀ v : Nat, (makeMetrics none ((draws ++ [v]).map Select.tick)).2.value =
      (draws.map (Int63n 10)).sum + Int63n 10 v := by
    intro v
    have h := makeMetricsLoop_ticks (draws ++ [v]) Counter.new
    simp only [makeMetrics, h]
    simp [Counter.new]
  simp only [hm]
  simp only [makeMetrics, makeMetricsLoop_ticks, makeMetricsLoop_ticks_done, Counter.new,
    List.nil_append, zero_add, List.length_map, List.map_append, List.sum_append,
    List.map_cons, List.map_nil, List.sum_cons, List.sum_nil, add_zero, true_and]
  refine ⟨?_, hb.1, hb.2, ?_, ?_⟩
  · intro n hn
    rcases List.mem_map.mp hn with ⟨v, _, rfl⟩
    exact Int63n_ten_range v
  · intro v
    have hv := Int63n_ten_range v
    omega
  · intro rest; trivial

end Demo5

/-! ## Theorems: graceful shutdown -/

namespace Shutdown

/-- C10: with one request in flight at the signal, demo5's `srv.Shutdown(ctx)`, called
after `cancel()`, returns the context's error with the request still in flight, while the
same call with `context.Background()` (a-service, b-service, demo4) returns only once the
request has completed. -/
theorem demo5_shutdown_does_not_drain :
    mainOnSignalDemo5 ⟨true, 1, 0⟩ = (⟨false, 1, 0⟩, ShutdownResult.ctxErr) ∧
    mainOnSignalBackground ⟨true, 1, 0⟩ = (⟨false, 0, 1⟩, ShutdownResult.drained) := by
  decide

end Shutdown
